import Mathlib

/-
Verification of the OmniProx multi-cloud proxy fleet manager.

The definitions below are shallow embeddings of the Python source:
  - src/omniprox/core/base.py      (BaseOmniProx: execute, proxytest, save_profile)
  - src/omniprox/core/utils.py     (module-level names)
  - src/omniprox/providers/cloudflare.py (CloudflareProvider)
  - src/omniprox/providers/azure.py      (AzureProvider.create, save_pool_config)
  - src/omniprox/cli.py            (get_provider_class)
Stateful code is embedded as explicit state passing; fallible code returns
Except; the persisted stores are plain lists or strings.
-/

namespace OmniProx

/-- An endpoint record as written by `CloudflareProvider.create`
(cloudflare.py, the dict with keys name / url / target_url / created_at /
provider). -/
structure Endpoint where
  name : String
  url : String
  target_url : String
  created_at : String
deriving DecidableEq, Repr

/-- Names of the endpoints in a store. -/
def namesOf (l : List Endpoint) : List String :=
  l.map Endpoint.name

/-- `CloudflareProvider._save_endpoint`: load the store, replace the first
entry with the same name, else append, then save the whole list. -/
def upsertFirst : List Endpoint → Endpoint → List Endpoint
  | [], e => [e]
  | ep :: rest, e =>
      if ep.name = e.name then e :: rest else ep :: upsertFirst rest e

/-- Folding `_save_endpoint` over a list of new endpoints. -/
def upsertAll (store : List Endpoint) (es : List Endpoint) : List Endpoint :=
  es.foldl upsertFirst store

/-- `CloudflareProvider._remove_endpoint`: keep every entry whose name
differs. -/
def removeEndpoint (store : List Endpoint) (name : String) : List Endpoint :=
  store.filter (fun ep => ep.name ≠ name)

/-- Outcome of one iteration of the worker-creation loop in
`CloudflareProvider.create`: the PUT deploy succeeded (2xx), returned 401,
returned 403, or `requests` raised (including `raise_for_status`). -/
inductive CfAttempt where
  | ok (w : Endpoint)
  | authFail
  | permFail
  | reqExc
deriving DecidableEq, Repr

def CfAttempt.isOk : CfAttempt → Bool
  | .ok _ => true
  | _ => false

/-- The successfully created endpoints of an attempt list, in request
order. -/
def cfSuccesses (attempts : List CfAttempt) : List Endpoint :=
  attempts.filterMap (fun a => match a with | .ok w => some w | _ => none)

/-- Number of failed attempts. -/
def cfFailures (attempts : List CfAttempt) : Nat :=
  (attempts.filter (fun a => !a.isOk)).length

/-- Loop state of `CloudflareProvider.create`: the in-memory
`created_workers` list, the `failed_count` counter, and the persisted
endpoints store (`cloudflare_endpoints.json`). -/
structure CfBatchState where
  created : List Endpoint
  failed : Nat
  store : List Endpoint
deriving DecidableEq, Repr

/-- One iteration of the create loop.  On success (2xx) the endpoint is
saved to the store via `_save_endpoint` and appended to `created_workers`;
on 401/403 or a `requests.RequestException` the code returns `False`
immediately when `num_proxies == 1`, otherwise increments `failed_count`
and continues (`Sum.inr b` models an early `return b`). -/
def cfStep (numProxies : Nat) (s : CfBatchState) (a : CfAttempt) :
    CfBatchState ⊕ Bool :=
  match a with
  | .ok w =>
      Sum.inl ⟨s.created ++ [w], s.failed, upsertFirst s.store w⟩
  | _ =>
      if numProxies = 1 then Sum.inr false
      else Sum.inl ⟨s.created, s.failed + 1, s.store⟩

/-- The create loop of `CloudflareProvider.create`, running the attempts in
order; returns the final state and `some b` when the loop returned early. -/
def cfRun (numProxies : Nat) :
    List CfAttempt → CfBatchState → CfBatchState × Option Bool
  | [], s => (s, none)
  | a :: rest, s =>
      match cfStep numProxies s a with
      | Sum.inl s2 => cfRun numProxies rest s2
      | Sum.inr b => (s, some b)

/-- Whole `CloudflareProvider.create` batch on an initially empty store:
runs the loop with `num_proxies = attempts.length` and returns the bool
result (`len(created_workers) > 0` unless an early return fired) together
with the final state. -/
def cfCreate (attempts : List CfAttempt) : Bool × CfBatchState :=
  let r := cfRun attempts.length attempts ⟨[], 0, []⟩
  (match r.2 with
   | some b => b
   | none => decide (0 < r.1.created.length), r.1)

/-- Persisted store contents after the first `j` loop iterations of a
Cloudflare batch create over an initial store — the crash observation
point for claim C1. -/
def cfStoreAfterIters (attempts : List CfAttempt) (initial : List Endpoint)
    (j : Nat) : List Endpoint :=
  ((cfRun attempts.length (attempts.take j) ⟨[], 0, initial⟩).1).store

/- Azure container pool creation (azure.py, AzureProvider.create):
successful deployments are appended to the in-memory `container_pool`;
`save_pool_config` persists the pool once, after the whole loop. -/

/-- One container of the Azure pool (`container_info` dict). -/
structure AzContainer where
  name : String
  ip : String
deriving DecidableEq, Repr

/-- Outcome of one iteration of the Azure pool loop: deployed with an IP,
deployed without an IP assigned (warning only), or an exception caught by
the per-iteration handler. -/
inductive AzAttempt where
  | ok (c : AzContainer)
  | noIp
  | exc
deriving DecidableEq, Repr

structure AzBatchState where
  pool : List AzContainer
  successful : Nat
deriving DecidableEq, Repr

/-- One iteration of the Azure create loop. -/
def azStep (s : AzBatchState) (a : AzAttempt) : AzBatchState :=
  match a with
  | .ok c => ⟨s.pool ++ [c], s.successful + 1⟩
  | .noIp => s
  | .exc => s

/-- The Azure create loop. -/
def azRun (attempts : List AzAttempt) : AzBatchState :=
  attempts.foldl azStep ⟨[], 0⟩

/-- Successful containers of an Azure attempt list. -/
def azSuccesses (attempts : List AzAttempt) : List AzContainer :=
  attempts.filterMap (fun a => match a with | .ok c => some c | _ => none)

/-- Persisted pool after the first `j` iterations of `AzureProvider.create`:
`save_pool_config` runs only after the loop finishes, so a crash inside the
loop leaves the previously persisted pool untouched. -/
def azStoreAfterIters (attempts : List AzAttempt) (initial : List AzContainer)
    (j : Nat) : List AzContainer :=
  if attempts.length ≤ j then (azRun attempts).pool else initial

/- Delete (cloudflare.py, CloudflareProvider.delete): after init_provider
and the api_id presence check, a DELETE request is issued; status 200 or
404 both count as success and remove the endpoint from the local store;
any other status fails; a requests.RequestException is caught and fails. -/

/-- `CloudflareProvider.delete`: `status = none` models a caught
`requests.RequestException`; `some code` is the HTTP status of the DELETE.
Returns the command result and the persisted store afterwards. -/
def cfDelete (initOk : Bool) (apiId : Option String) (status : Option Nat)
    (store : List Endpoint) : Bool × List Endpoint :=
  if initOk = false then (false, store)
  else
    match apiId with
    | none => (false, store)
    | some name =>
        match status with
        | none => (false, store)
        | some code =>
            if code = 200 ∨ code = 404 then (true, removeEndpoint store name)
            else (false, store)

/- List / sync (cloudflare.py, CloudflareProvider.sync_endpoints): fetch
all worker scripts, keep those whose name starts with one of the
omniprox naming conventions, rebuild the endpoint records from the remote
data, and overwrite the local store with exactly that list. -/

/-- The `omniprox_prefixes` tuple from `sync_endpoints` and `cleanup`. -/
def omniproxNamePatterns : List String :=
  ["proxy-", "worker-", "api-", "service-", "app-", "edge-", "omniprox-"]

/-- Python `str.startswith`, on the character lists of the strings. -/
def strStartsWith (s p : String) : Bool :=
  List.isPrefixOf p.data s.data

/-- `name.startswith(omniprox_prefixes)`. -/
def isOmniproxName (name : String) : Bool :=
  omniproxNamePatterns.any (fun p => strStartsWith name p)

/-- One entry of the `result` array of the workers scripts API response. -/
structure RemoteScript where
  id : String
  created_on : String
deriving DecidableEq, Repr

/-- The endpoint record `sync_endpoints` rebuilds for one remote script. -/
def mkRemoteEndpoint (subdomain : String) (s : RemoteScript) : Endpoint :=
  ⟨s.id, "https://" ++ s.id ++ "." ++ subdomain ++ ".workers.dev", "",
    s.created_on⟩

/-- `CloudflareProvider.sync_endpoints` on the success path (subdomain
present, API call succeeded): returns the rebuilt remote list and saves it
as the whole new store via `_save_all_endpoints`. -/
def sync_endpoints (subdomain : String) (scripts : List RemoteScript)
    (localStore : List Endpoint) : List Endpoint × List Endpoint :=
  let remote := (scripts.filter (fun s => isOmniproxName s.id)).map
    (mkRemoteEndpoint subdomain)
  (remote, remote)

/- Rotation test (base.py, BaseOmniProx.proxytest): one request per created
proxy; successful (HTTP 200) responses contribute their body IP to the
`unique_ips` set; the summary prints `len(unique_ips)` both as
"Successful responses" and as "Unique IPs detected"; classification is by
`len(unique_ips)`; the command returns `len(unique_ips) > 0`. -/

/-- Outcome of one probe request in `proxytest`: HTTP 200 with the egress
IP in the body, a non-200 status, or a raised exception. -/
inductive ProbeResult where
  | ok (ip : String)
  | httpFail
  | exc
deriving DecidableEq, Repr

/-- Adding one element to the `unique_ips` set (insertion order kept). -/
def addIp (s : List String) (ip : String) : List String :=
  if ip ∈ s then s else s ++ [ip]

/-- The `unique_ips` set after the probe loop. -/
def uniqueIps (probes : List ProbeResult) : List String :=
  probes.foldl
    (fun s p => match p with | .ok ip => addIp s ip | _ => s) []

/-- The number of probes that returned HTTP 200 — what the label
"Successful responses" describes. -/
def successfulResponses (probes : List ProbeResult) : Nat :=
  (probes.filter (fun p => match p with | .ok _ => true | _ => false)).length

/-- The number `proxytest` actually prints under "Successful responses":
the code prints `len(unique_ips)`. -/
def reportedSuccessfulResponses (probes : List ProbeResult) : Nat :=
  (uniqueIps probes).length

inductive RotationClass where
  | confirmed
  | noRotation
  | totalFailure
deriving DecidableEq, Repr

/-- The classification branch of `proxytest`:
`len(unique_ips) > 1` / `== 1` / else. -/
def classifyRotation (n : Nat) : RotationClass :=
  if 1 < n then RotationClass.confirmed
  else if n = 1 then RotationClass.noRotation
  else RotationClass.totalFailure

/-- Classification printed by `proxytest` on a probe list. -/
def proxytestClass (probes : List ProbeResult) : RotationClass :=
  classifyRotation (uniqueIps probes).length

/-- The boolean result of `proxytest`: `return len(unique_ips) > 0`. -/
def proxytestResult (probes : List ProbeResult) : Bool :=
  decide (0 < (uniqueIps probes).length)

/- Store saves (base.py BaseOmniProx.save_profile, cloudflare.py
CloudflareProvider._save_all_endpoints, azure.py
AzureProvider.save_pool_config): each opens the store file itself with
mode 'w' — which truncates it — and then writes the serialized contents.
No temporary file and no rename appear anywhere in these functions.  The
filesystem is modelled at the level of the primitive effects a crash can
interrupt between. -/

/-- Primitive filesystem effects on the store path and its temp sibling. -/
inductive FsOp where
  | openTruncate
  | writeChunk (s : String)
  | writeTempChunk (s : String)
  | renameTempOver
deriving DecidableEq, Repr

/-- Contents of the store file and of the temp file. -/
structure FsState where
  main : String
  temp : String
deriving DecidableEq, Repr

def runOp (s : FsState) : FsOp → FsState
  | .openTruncate => ⟨"", s.temp⟩
  | .writeChunk c => ⟨s.main ++ c, s.temp⟩
  | .writeTempChunk c => ⟨s.main, s.temp ++ c⟩
  | .renameTempOver => ⟨s.temp, ""⟩

def runOps (start : FsState) (ops : List FsOp) : FsState :=
  ops.foldl runOp start

/-- Store contents observed when the process is killed after the first `t`
effects of a save over old contents `old`. -/
def contentAfterCrash (ops : List FsOp) (old : String) (t : Nat) : String :=
  (runOps ⟨old, ""⟩ (ops.take t)).main

/-- A save is atomic replace-on-write when every crash point leaves the
store holding either the old contents or the final contents in full. -/
def atomicReplace (ops : List FsOp) : Prop :=
  ∀ old t, contentAfterCrash ops old t = old ∨
    contentAfterCrash ops old t = contentAfterCrash ops old ops.length

/-- Effects of `BaseOmniProx.save_profile`:
`with open(self.config_path, 'w') as f: config.write(f)`. -/
def save_profile_ops (serialized : String) : List FsOp :=
  [FsOp.openTruncate, FsOp.writeChunk serialized]

/-- Effects of `CloudflareProvider._save_all_endpoints`:
`with open(self.endpoints_file, 'w') as f: json.dump(endpoints, f)`. -/
def save_all_endpoints_ops (serialized : String) : List FsOp :=
  [FsOp.openTruncate, FsOp.writeChunk serialized]

/-- Effects of `AzureProvider.save_pool_config`:
`with open(self.config_path, 'w') as f: self.config.write(f)`. -/
def save_pool_config_ops (serialized : String) : List FsOp :=
  [FsOp.openTruncate, FsOp.writeChunk serialized]

/-- Modelled from the spec: the atomic replace-on-write save the spec
describes (write the new contents to a temp file, then rename it over the
store file); no function of the repository implements it. -/
def spec_atomic_save_ops (serialized : String) : List FsOp :=
  [FsOp.writeTempChunk serialized, FsOp.renameTempOver]

/- Command dispatch and exception flow (base.py BaseOmniProx.execute;
cloudflare.py command implementations).  `execute` looks the command up in
`command_map`, runs it inside `try`, and on `Exception` logs the failure
and re-raises (`raise`).  `CloudflareProvider.cleanup` reads its
confirmation with `input()` OUTSIDE its `try` block when stdin is a tty,
so `input()` raising EOFError escapes `cleanup` itself; the create loop
instead catches every `requests.RequestException` inside the loop and
never raises. -/

/-- Exceptions relevant to the dispatch model. -/
inductive CfExc where
  | eofError
  | requestException
deriving DecidableEq, Repr

/-- Result of the `input()` call: a line, or EOF (which makes `input()`
raise EOFError). -/
inductive StdinRead where
  | line (s : String)
  | eof
deriving DecidableEq, Repr

/-- Environment of one dispatched Cloudflare command. -/
structure ExecCtx where
  stdinTty : Bool
  stdinRead : StdinRead
  cleanupBody : Bool
  attempts : List CfAttempt
deriving DecidableEq, Repr

/-- `CloudflareProvider.cleanup` up to its `try` block: non-interactive
stdin auto-confirms; interactive stdin reads a line with `input()` (EOF
raises), a non-"yes" answer cancels; the guarded body catches every
`Exception`, so it is a plain `Bool` (`cleanupBody`). -/
def cfCleanup (ctx : ExecCtx) : Except CfExc Bool :=
  if ctx.stdinTty = false then Except.ok ctx.cleanupBody
  else
    match ctx.stdinRead with
    | .eof => Except.error CfExc.eofError
    | .line s =>
        if s.toLower ≠ "yes" then Except.ok false
        else Except.ok ctx.cleanupBody

/-- The commands `execute` dispatches (base.py `command_map`). -/
inductive CfCommand where
  | createCmd
  | cleanupCmd
deriving DecidableEq, Repr

/-- `BaseOmniProx.execute` over the modelled Cloudflare commands: run the
command; `except Exception` logs and re-raises, so an error result passes
through unchanged.  `create` never errors — its loop converts request
failures into `failed_count` (see `cfRun`) and its outer handler returns a
bool. -/
def cfExecute (cmd : CfCommand) (ctx : ExecCtx) : Except CfExc Bool :=
  let result : Except CfExc Bool :=
    match cmd with
    | .createCmd => Except.ok (cfCreate ctx.attempts).1
    | .cleanupCmd => cfCleanup ctx
  match result with
  | Except.ok b => Except.ok b
  | Except.error e => Except.error e

/- Validation ordering (cloudflare.py CloudflareProvider.create lines
504-530 and CloudflareProvider.delete lines 755-764): both commands call
`init_provider()` first — which issues a GET to verify credentials, a
network call — and only afterwards check `--url` / `--api_id`; an
out-of-range `--number` is clamped into [1, 10] (with a printed warning
above 10) and creation proceeds. -/

/-- Events of the prelude of `CloudflareProvider.create`, in program
order. -/
inductive CreateEvent where
  | credentialNetworkCall
  | initFailed
  | urlMissing
  | proceed (n : Int)
deriving DecidableEq, Repr

/-- The `num_proxies` adjustment in `create`: `< 1` becomes 1 silently,
`> 10` becomes 10 with a warning. -/
def clampCount (n : Int) : Int :=
  if n < 1 then 1 else if n > 10 then 10 else n

/-- Prelude of `CloudflareProvider.create`: credential verification
(network) first, then the url presence check, then the clamped count. -/
def cfCreatePrelude (initOk : Bool) (url : Option String) (number : Int) :
    List CreateEvent :=
  CreateEvent.credentialNetworkCall ::
    (if initOk = false then [CreateEvent.initFailed]
     else
       match url with
       | none => [CreateEvent.urlMissing]
       | some _ => [CreateEvent.proceed (clampCount number)])

/-- Events of the prelude of `CloudflareProvider.delete`. -/
inductive DeleteEvent where
  | credentialNetworkCall
  | initFailed
  | apiIdMissing
  | proceedDelete
deriving DecidableEq, Repr

/-- Prelude of `CloudflareProvider.delete`: credential verification
(network) first, then the api_id presence check. -/
def cfDeletePrelude (initOk : Bool) (apiId : Option String) :
    List DeleteEvent :=
  DeleteEvent.credentialNetworkCall ::
    (if initOk = false then [DeleteEvent.initFailed]
     else
       match apiId with
       | none => [DeleteEvent.apiIdMissing]
       | some _ => [DeleteEvent.proceedDelete])

/- Module loading of the azure and gcp providers (azure.py line 21,
gcp.py line 23, core/utils.py, cli.py get_provider_class).  Both provider
modules run `from omniprox.core.utils import confirm_action, ...` at
module level, unguarded; utils.py defines no name `confirm_action`, so
the import raises ImportError and the module never loads. -/

/-- Every module-level name `omniprox.core.utils` defines (its complete
list of functions; it defines nothing else). -/
def utils_defined_names : List String :=
  ["setup_logging", "check_provider_availability", "check_gcp_availability",
   "check_cloudflare_availability", "check_azure_availability",
   "check_alibaba_availability", "get_available_providers",
   "print_provider_status", "normalize_url", "format_timestamp",
   "truncate_text", "get_unique_suffix"]

/-- Names azure.py requests from utils:
`from omniprox.core.utils import confirm_action, get_unique_suffix`. -/
def azure_utils_imports : List String :=
  ["confirm_action", "get_unique_suffix"]

/-- Names gcp.py requests from utils:
`from ..core.utils import confirm_action, normalize_url`. -/
def gcp_utils_imports : List String :=
  ["confirm_action", "normalize_url"]

inductive ImportOutcome where
  | ok
  | importError (missing : String)
deriving DecidableEq, Repr

/-- Python `from module import a, b` semantics: fails with ImportError at
the first requested name the module does not define. -/
def fromUtilsImport (requested : List String) : ImportOutcome :=
  match requested.find? (fun n => !(utils_defined_names.contains n)) with
  | some n => ImportOutcome.importError n
  | none => ImportOutcome.ok

/-- Loading azure.py: its unguarded utils import. -/
def azure_module_load : ImportOutcome :=
  fromUtilsImport azure_utils_imports

/-- Loading gcp.py: its unguarded utils import. -/
def gcp_module_load : ImportOutcome :=
  fromUtilsImport gcp_utils_imports

/-- Where a provider selection ends up in `cli.get_provider_class`:
the availability check fails, the provider module import fails, or the
provider class is obtained and its logic (credential checks, cloud API
calls) becomes reachable. -/
inductive ProviderDispatch where
  | unavailable
  | importFailed (missing : String)
  | providerLogic
deriving DecidableEq, Repr

/-- `cli.get_provider_class('azure')`: `check_provider_availability`
first (SDK import probe), then `from omniprox.providers.azure import
AzureProvider`, which runs the module body. -/
def get_provider_class_azure (sdkAvailable : Bool) : ProviderDispatch :=
  if sdkAvailable = false then ProviderDispatch.unavailable
  else
    match azure_module_load with
    | ImportOutcome.importError n => ProviderDispatch.importFailed n
    | ImportOutcome.ok => ProviderDispatch.providerLogic

/-- `cli.get_provider_class('gcp')`. -/
def get_provider_class_gcp (sdkAvailable : Bool) : ProviderDispatch :=
  if sdkAvailable = false then ProviderDispatch.unavailable
  else
    match gcp_module_load with
    | ImportOutcome.importError n => ProviderDispatch.importFailed n
    | ImportOutcome.ok => ProviderDispatch.providerLogic

/- Concrete example inputs, used by witnesses and counterexamples. -/

def ep1 : Endpoint :=
  ⟨"proxy-1700000001-aaaaaa", "https://proxy-1700000001-aaaaaa.w.workers.dev",
    "https://example.local", "2025-01-01 00:00:01"⟩

def ep2 : Endpoint :=
  ⟨"worker-1700000002-bbbbbb", "https://worker-1700000002-bbbbbb.w.workers.dev",
    "https://example.local", "2025-01-01 00:00:02"⟩

def ep3 : Endpoint :=
  ⟨"api-1700000003-cccccc", "https://api-1700000003-cccccc.w.workers.dev",
    "https://example.local", "2025-01-01 00:00:03"⟩

def ep4 : Endpoint :=
  ⟨"edge-1700000004-dddddd", "https://edge-1700000004-dddddd.w.workers.dev",
    "https://example.local", "2025-01-01 00:00:04"⟩

/-- A 5-attempt Cloudflare batch that fails on attempt 2 and succeeds
otherwise (the P3 scenario of the spec). -/
def cfExampleAttempts : List CfAttempt :=
  [CfAttempt.ok ep1, CfAttempt.reqExc, CfAttempt.ok ep2, CfAttempt.ok ep3,
   CfAttempt.ok ep4]

def azc1 : AzContainer := ⟨"omniprox-pool-1-aaaa", "20.1.2.3"⟩

def azc2 : AzContainer := ⟨"omniprox-pool-2-bbbb", "20.1.2.4"⟩

/-- Probe results with identifiers 1.2.3.4, 1.2.3.4, 5.6.7.8. -/
def probesTwoIps : List ProbeResult :=
  [ProbeResult.ok "1.2.3.4", ProbeResult.ok "1.2.3.4", ProbeResult.ok "5.6.7.8"]

/-- Probe results all returning the same identifier. -/
def probesOneIp : List ProbeResult :=
  [ProbeResult.ok "1.2.3.4", ProbeResult.ok "1.2.3.4", ProbeResult.ok "1.2.3.4"]

/-- Probe results with zero successful responses. -/
def probesNone : List ProbeResult :=
  [ProbeResult.httpFail, ProbeResult.exc, ProbeResult.httpFail]

/-- Two successful probes returning the same identifier. -/
def probesSameIp : List ProbeResult :=
  [ProbeResult.ok "1.2.3.4", ProbeResult.ok "1.2.3.4"]

/-- A dispatch context with interactive stdin at end-of-file. -/
def ctxEof : ExecCtx := ⟨true, StdinRead.eof, false, []⟩

/- Helper lemmas. -/

theorem namesOf_cons (e : Endpoint) (l : List Endpoint) :
    namesOf (e :: l) = e.name :: namesOf l := rfl

theorem namesOf_append (l1 l2 : List Endpoint) :
    namesOf (l1 ++ l2) = namesOf l1 ++ namesOf l2 := by
  simp [namesOf]

/-- Saving an endpoint whose name is fresh appends it. -/
theorem upsertFirst_of_fresh (e : Endpoint) :
    ∀ (store : List Endpoint), e.name ∉ namesOf store →
      upsertFirst store e = store ++ [e] := by
  intro store
  induction store with
  | nil => intro _; rfl
  | cons ep rest ih =>
      intro h
      rw [namesOf_cons] at h
      simp only [List.mem_cons, not_or] at h
      have hne : ¬ ep.name = e.name := fun hh => h.1 hh.symm
      simp only [upsertFirst, if_neg hne, List.cons_append, ih h.2]

/-- Saving a list of endpoints with pairwise fresh, mutually distinct
names appends them in order. -/
theorem upsertAll_of_fresh :
    ∀ (es store : List Endpoint), (namesOf es).Nodup →
      (∀ w ∈ es, w.name ∉ namesOf store) →
      upsertAll store es = store ++ es := by
  intro es
  induction es with
  | nil => intro store _ _; simp [upsertAll]
  | cons w rest ih =>
      intro store hnd hfresh
      rw [namesOf_cons, List.nodup_cons] at hnd
      have h1 : w.name ∉ namesOf store := hfresh w (by simp)
      have hstep : upsertAll store (w :: rest) =
          upsertAll (store ++ [w]) rest := by
        simp [upsertAll, upsertFirst_of_fresh w store h1]
      have hfresh2 : ∀ v ∈ rest, v.name ∉ namesOf (store ++ [w]) := by
        intro v hv
        rw [namesOf_append]
        simp only [List.mem_append, not_or]
        refine ⟨hfresh v (List.mem_cons_of_mem _ hv), ?_⟩
        simp only [namesOf, List.map, List.mem_singleton]
        intro hvw
        exact hnd.1 (hvw ▸ List.mem_map_of_mem Endpoint.name hv)
      rw [hstep, ih (store ++ [w]) hnd.2 hfresh2]
      simp

/-- Closed form of the create loop when `num_proxies ≠ 1`: no early
return, successes accumulate in order, failures are counted, each success
is saved. -/
theorem cfRun_closed_form (numProxies : Nat) (h : numProxies ≠ 1) :
    ∀ (l : List CfAttempt) (s : CfBatchState),
      cfRun numProxies l s =
        (⟨s.created ++ cfSuccesses l, s.failed + cfFailures l,
          upsertAll s.store (cfSuccesses l)⟩, none) := by
  intro l
  induction l with
  | nil =>
      intro s
      obtain ⟨c, f, st⟩ := s
      simp [cfRun, cfSuccesses, cfFailures, upsertAll]
  | cons a rest ih =>
      intro s
      obtain ⟨c, f, st⟩ := s
      cases a with
      | ok w =>
          show cfRun numProxies rest ⟨c ++ [w], f, upsertFirst st w⟩ = _
          rw [ih]
          simp [cfSuccesses, cfFailures, upsertAll, CfAttempt.isOk,
            List.filterMap_cons, List.filter_cons]
      | authFail =>
          have hred : cfRun numProxies (CfAttempt.authFail :: rest)
              ⟨c, f, st⟩ = cfRun numProxies rest ⟨c, f + 1, st⟩ := by
            simp [cfRun, cfStep, h]
          rw [hred, ih]
          simp [cfSuccesses, cfFailures, upsertAll, CfAttempt.isOk,
            List.filterMap_cons, List.filter_cons]
          omega
      | permFail =>
          have hred : cfRun numProxies (CfAttempt.permFail :: rest)
              ⟨c, f, st⟩ = cfRun numProxies rest ⟨c, f + 1, st⟩ := by
            simp [cfRun, cfStep, h]
          rw [hred, ih]
          simp [cfSuccesses, cfFailures, upsertAll, CfAttempt.isOk,
            List.filterMap_cons, List.filter_cons]
          omega
      | reqExc =>
          have hred : cfRun numProxies (CfAttempt.reqExc :: rest)
              ⟨c, f, st⟩ = cfRun numProxies rest ⟨c, f + 1, st⟩ := by
            simp [cfRun, cfStep, h]
          rw [hred, ih]
          simp [cfSuccesses, cfFailures, upsertAll, CfAttempt.isOk,
            List.filterMap_cons, List.filter_cons]
          omega

/-- Successes of a loop prefix form a sublist of all successes. -/
theorem cfSuccesses_take_sublist (l : List CfAttempt) (j : Nat) :
    List.Sublist (cfSuccesses (l.take j)) (cfSuccesses l) :=
  List.Sublist.filterMap _ (List.take_sublist j l)

/-- Claim C2: during a batch create of count N > 1, a failure of one
creation attempt never aborts the batch (no early return); the final
summary counts are the number of successful and of failed attempts, and
the store holds exactly the successful endpoints in request order. -/
theorem cf_batch_failure_never_aborts (attempts : List CfAttempt)
    (hN : 1 < attempts.length)
    (hnodup : (namesOf (cfSuccesses attempts)).Nodup) :
    (cfRun attempts.length attempts ⟨[], 0, []⟩).2 = none ∧
    (cfRun attempts.length attempts ⟨[], 0, []⟩).1.created =
      cfSuccesses attempts ∧
    (cfRun attempts.length attempts ⟨[], 0, []⟩).1.failed =
      cfFailures attempts ∧
    (cfRun attempts.length attempts ⟨[], 0, []⟩).1.store =
      cfSuccesses attempts := by
  have h1 : attempts.length ≠ 1 := by omega
  rw [cfRun_closed_form attempts.length h1 attempts ⟨[], 0, []⟩]
  refine ⟨rfl, by simp, by simp, ?_⟩
  show upsertAll [] (cfSuccesses attempts) = cfSuccesses attempts
  rw [upsertAll_of_fresh (cfSuccesses attempts) [] hnodup
    (by intro w _; simp [namesOf])]
  simp

/-- Witness for C2: the P3 scenario — failure on attempt 2 of 5 yields
4 successes, 1 failure, no abort, and the 4 endpoints in order. -/
theorem cf_batch_failure_never_aborts_witness :
    (cfRun 5 cfExampleAttempts ⟨[], 0, []⟩).2 = none ∧
    (cfRun 5 cfExampleAttempts ⟨[], 0, []⟩).1.created.length = 4 ∧
    (cfRun 5 cfExampleAttempts ⟨[], 0, []⟩).1.failed = 1 ∧
    (cfRun 5 cfExampleAttempts ⟨[], 0, []⟩).1.store =
      [ep1, ep2, ep3, ep4] := by
  have h := cf_batch_failure_never_aborts cfExampleAttempts
    (by decide) (by decide)
  have hlen : cfExampleAttempts.length = 5 := rfl
  rw [hlen] at h
  refine ⟨h.1, ?_, ?_, ?_⟩
  · rw [h.2.1]; decide
  · rw [h.2.2.1]; decide
  · rw [h.2.2.2]; decide

/-- Claim C1 (amended): in the Cloudflare provider every successful
creation is persisted before the next attempt begins — after any prefix of
the batch loop the store holds exactly the successes of that prefix; in
the Azure provider `save_pool_config` runs only after the whole loop, so a
process killed during the loop leaves the previously persisted pool, not
the endpoints created so far. -/
theorem create_persists_each_success_amended :
    (∀ (attempts : List CfAttempt) (j : Nat),
        (namesOf (cfSuccesses attempts)).Nodup →
        cfStoreAfterIters attempts [] j = cfSuccesses (attempts.take j)) ∧
    (∀ (attempts : List AzAttempt) (initial : List AzContainer) (j : Nat),
        j < attempts.length →
        azStoreAfterIters attempts initial j = initial) := by
  constructor
  · intro attempts j hnodup
    have hnd : (namesOf (cfSuccesses (attempts.take j))).Nodup :=
      ((cfSuccesses_take_sublist attempts j).map Endpoint.name).nodup hnodup
    by_cases h1 : attempts.length = 1
    · obtain ⟨a, ha⟩ := List.length_eq_one.mp h1
      subst ha
      match j with
      | 0 => rfl
      | Nat.succ k =>
          cases a with
          | ok w => simp [cfStoreAfterIters, cfRun, cfStep, cfSuccesses,
              upsertFirst]
          | authFail => simp [cfStoreAfterIters, cfRun, cfStep, cfSuccesses]
          | permFail => simp [cfStoreAfterIters, cfRun, cfStep, cfSuccesses]
          | reqExc => simp [cfStoreAfterIters, cfRun, cfStep, cfSuccesses]
    · unfold cfStoreAfterIters
      rw [cfRun_closed_form attempts.length h1 (attempts.take j) ⟨[], 0, []⟩]
      show upsertAll [] (cfSuccesses (attempts.take j)) = _
      rw [upsertAll_of_fresh (cfSuccesses (attempts.take j)) [] hnd
        (by intro w _; simp [namesOf])]
      simp
  · intro attempts initial j hj
    unfold azStoreAfterIters
    rw [if_neg (by omega)]

/-- Counterexample for C1: an Azure batch of 2, killed after the first
success, leaves a store with 0 endpoints, not the 1 successful endpoint
the claim requires. -/
theorem create_persists_each_success_counterexample :
    azStoreAfterIters [AzAttempt.ok azc1, AzAttempt.ok azc2] [] 1 = [] ∧
    azSuccesses ([AzAttempt.ok azc1, AzAttempt.ok azc2].take 1) = [azc1] ∧
    ([] : List AzContainer) ≠ [azc1] := by
  refine ⟨rfl, rfl, by decide⟩

/-- Witness for C1 (amended): a Cloudflare batch killed after its first
iteration has persisted exactly the first success; the Azure store is
still empty at the same point. -/
theorem create_persists_each_success_witness :
    cfStoreAfterIters
      [CfAttempt.ok ep1, CfAttempt.reqExc, CfAttempt.ok ep2] [] 1 = [ep1] ∧
    azStoreAfterIters [AzAttempt.ok azc1, AzAttempt.ok azc2] [] 1 = [] := by
  have h := create_persists_each_success_amended
  refine ⟨?_, h.2 [AzAttempt.ok azc1, AzAttempt.ok azc2] [] 1 (by decide)⟩
  have h1 := h.1 [CfAttempt.ok ep1, CfAttempt.reqExc, CfAttempt.ok ep2] 1
    (by decide)
  exact h1.trans (by decide)

/-- Claim C3: delete succeeds for HTTP 200 and for HTTP 404, removing the
endpoint from the persisted store in both cases; two consecutive deletes
of the same id both succeed, and NotFound is never surfaced as an error. -/
theorem delete_idempotent (name : String) (store : List Endpoint)
    (c1 c2 : Nat) (h1 : c1 = 200 ∨ c1 = 404) (h2 : c2 = 200 ∨ c2 = 404) :
    ∃ store1 store2 : List Endpoint,
      cfDelete true (some name) (some c1) store = (true, store1) ∧
      cfDelete true (some name) (some c2) store1 = (true, store2) ∧
      (∀ ep ∈ store1, ep.name ≠ name) ∧
      (∀ ep ∈ store2, ep.name ≠ name) := by
  have hgo : ∀ (st : List Endpoint) (c : Nat), c = 200 ∨ c = 404 →
      cfDelete true (some name) (some c) st =
        (true, removeEndpoint st name) := by
    intro st c hc
    show (if c = 200 ∨ c = 404 then (true, removeEndpoint st name)
      else (false, st)) = _
    rw [if_pos hc]
  have hmem : ∀ (st : List Endpoint), ∀ ep ∈ removeEndpoint st name,
      ep.name ≠ name := by
    intro st ep hep
    simp only [removeEndpoint, List.mem_filter, decide_eq_true_eq] at hep
    exact hep.2
  exact ⟨removeEndpoint store name,
    removeEndpoint (removeEndpoint store name) name,
    hgo store c1 h1, hgo (removeEndpoint store name) c2 h2,
    hmem store, hmem (removeEndpoint store name)⟩

/-- Witness for C3: deleting a present endpoint with a 200 and deleting it
again with a 404 both succeed. -/
theorem delete_idempotent_witness :
    (cfDelete true (some "proxy-1700000001-aaaaaa") (some 200) [ep1]).1 =
      true ∧
    (cfDelete true (some "proxy-1700000001-aaaaaa") (some 404)
      (cfDelete true (some "proxy-1700000001-aaaaaa") (some 200)
        [ep1]).2).1 = true := by
  obtain ⟨s1, s2, e1, e2, _, _⟩ :=
    delete_idempotent "proxy-1700000001-aaaaaa" [ep1] 200 404
      (Or.inl rfl) (Or.inr rfl)
  constructor
  · rw [e1]
  · rw [e1]
    exact congrArg Prod.fst e2

/-- Claim C4: after a successful sync, the persisted store holds exactly
the remotely reported tool-owned endpoints — membership is characterised
by the remote list alone, and the result does not depend on the previous
local store. -/
theorem list_sync_replaces_store (subdomain : String)
    (scripts : List RemoteScript) (localStore : List Endpoint) :
    (sync_endpoints subdomain scripts localStore).2 =
      (sync_endpoints subdomain scripts []).2 ∧
    (∀ ep, ep ∈ (sync_endpoints subdomain scripts localStore).2 ↔
      ∃ s, s ∈ scripts ∧ isOmniproxName s.id = true ∧
        ep = mkRemoteEndpoint subdomain s) := by
  refine ⟨rfl, ?_⟩
  intro ep
  simp only [sync_endpoints, List.mem_map, List.mem_filter]
  constructor
  · rintro ⟨s, ⟨hs, hname⟩, hep⟩
    exact ⟨s, hs, hname, hep.symm⟩
  · rintro ⟨s, hs, hname, hep⟩
    exact ⟨s, ⟨hs, hname⟩, hep.symm⟩

/-- Witness for C4: the P4 scenario — local store holding A, remote
reporting A and B, yields a store holding exactly A and B; remote
reporting only B yields exactly B. -/
theorem list_sync_replaces_store_witness :
    (sync_endpoints "w"
      [⟨"proxy-aa", "2025-01-01"⟩, ⟨"proxy-bb", "2025-01-02"⟩]
      [mkRemoteEndpoint "w" ⟨"proxy-aa", "2025-01-01"⟩]).2 =
        [mkRemoteEndpoint "w" ⟨"proxy-aa", "2025-01-01"⟩,
         mkRemoteEndpoint "w" ⟨"proxy-bb", "2025-01-02"⟩] ∧
    (sync_endpoints "w" [⟨"proxy-bb", "2025-01-02"⟩]
      [mkRemoteEndpoint "w" ⟨"proxy-aa", "2025-01-01"⟩]).2 =
        [mkRemoteEndpoint "w" ⟨"proxy-bb", "2025-01-02"⟩] := by
  have ha := list_sync_replaces_store "w"
    [⟨"proxy-aa", "2025-01-01"⟩, ⟨"proxy-bb", "2025-01-02"⟩]
    [mkRemoteEndpoint "w" ⟨"proxy-aa", "2025-01-01"⟩]
  have hb := list_sync_replaces_store "w" [⟨"proxy-bb", "2025-01-02"⟩]
    [mkRemoteEndpoint "w" ⟨"proxy-aa", "2025-01-01"⟩]
  refine ⟨ha.1.trans (by decide), hb.1.trans (by decide)⟩

/-- Claim C5: the rotation-test classification is a function of the number
of distinct egress identifiers — more than 1 is rotation confirmed,
exactly 1 is no rotation, 0 is total failure — and the command result is
success exactly when that number is positive. -/
theorem rotation_classification (probes : List ProbeResult) :
    (proxytestClass probes = RotationClass.confirmed ↔
      1 < (uniqueIps probes).length) ∧
    (proxytestClass probes = RotationClass.noRotation ↔
      (uniqueIps probes).length = 1) ∧
    (proxytestClass probes = RotationClass.totalFailure ↔
      (uniqueIps probes).length = 0) ∧
    (proxytestResult probes = true ↔ 0 < (uniqueIps probes).length) := by
  have hres : proxytestResult probes = true ↔
      0 < (uniqueIps probes).length := by
    simp [proxytestResult]
  refine ⟨?_, ?_, ?_, hres⟩ <;> unfold proxytestClass classifyRotation
  · split_ifs with h h2
    · simp [h]
    · constructor
      · intro hc; exact absurd hc (by decide)
      · intro hc; exfalso; omega
    · constructor
      · intro hc; exact absurd hc (by decide)
      · intro hc; exfalso; omega
  · split_ifs with h h2
    · constructor
      · intro hc; exact absurd hc (by decide)
      · intro hc; exfalso; omega
    · simp [h2]
    · constructor
      · intro hc; exact absurd hc (by decide)
      · intro hc; exfalso; omega
  · split_ifs with h h2
    · constructor
      · intro hc; exact absurd hc (by decide)
      · intro hc; exfalso; omega
    · constructor
      · intro hc; exact absurd hc (by decide)
      · intro hc; exfalso; omega
    · constructor
      · intro _; omega
      · intro _; rfl

/-- Witness for C5: the P5 scenario — identifiers 1.2.3.4, 1.2.3.4,
5.6.7.8 give rotation confirmed; all-same identifiers give no rotation;
zero successful responses give total failure. -/
theorem rotation_classification_witness :
    proxytestClass probesTwoIps = RotationClass.confirmed ∧
    proxytestClass probesOneIp = RotationClass.noRotation ∧
    proxytestClass probesNone = RotationClass.totalFailure ∧
    proxytestResult probesNone = false := by
  have h2 := rotation_classification probesTwoIps
  have h1 := rotation_classification probesOneIp
  have h0 := rotation_classification probesNone
  refine ⟨h2.1.mpr (by decide), h1.2.1.mpr (by decide),
    h0.2.2.1.mpr (by decide), ?_⟩
  have := h0.2.2.2
  cases hres : proxytestResult probesNone
  · rfl
  · exact absurd ((this.mp hres)) (by decide)

/-- Claim C6 (code bug): the summary of `proxytest` prints the size of the
unique-IP set under the label "Successful responses"; on two successful
probes that return the same identifier the code reports 1, although 2
probe requests returned a successful HTTP response. -/
theorem reported_successes_is_unique_count :
    successfulResponses probesSameIp = 2 ∧
    reportedSuccessfulResponses probesSameIp = 1 ∧
    reportedSuccessfulResponses probesSameIp ≠
      successfulResponses probesSameIp := by decide

/-- Claim C7 (amended): every store save writes the new contents directly
over the store file — truncate on open, then write — with no temp file
and no rename; a process killed between truncation and the write leaves
an empty store, which is neither the old nor the new contents, while the
temp-write-then-rename scheme the spec describes would leave only old or
new. -/
theorem save_direct_write_amended (old s : String) (hold : old ≠ "")
    (hs : s ≠ "") :
    contentAfterCrash (save_profile_ops s) old 1 = "" ∧
    contentAfterCrash (save_profile_ops s) old 1 ≠ old ∧
    contentAfterCrash (save_profile_ops s) old 1 ≠ s ∧
    contentAfterCrash (save_profile_ops s) old 2 = s ∧
    contentAfterCrash (save_all_endpoints_ops s) old 1 = "" ∧
    contentAfterCrash (save_pool_config_ops s) old 1 = "" ∧
    atomicReplace (spec_atomic_save_ops s) := by
  have hw : ("" : String) ++ s = s := by simp
  refine ⟨rfl, fun h => hold h.symm, fun h => hs h.symm, hw, rfl, rfl, ?_⟩
  intro o t
  match t with
  | 0 => exact Or.inl rfl
  | 1 => exact Or.inl rfl
  | Nat.succ (Nat.succ k) =>
      refine Or.inr ?_
      unfold contentAfterCrash
      rw [show (spec_atomic_save_ops s).take (Nat.succ (Nat.succ k)) =
        spec_atomic_save_ops s from
        List.take_of_length_le (by simp [spec_atomic_save_ops]),
        List.take_length]

/-- Counterexample for C7: `save_profile` is not atomic replace-on-write —
killed after the truncating open and before the write, the store holds
neither the old nor the new contents. -/
theorem save_atomic_counterexample :
    ¬ atomicReplace (save_profile_ops "[new]") := by
  intro h
  rcases h "[old]" 1 with h1 | h1 <;> revert h1 <;> decide

/-- Witness for C7 (amended): concrete old and new contents. -/
theorem save_direct_write_witness :
    contentAfterCrash (save_profile_ops "[new]") "[old]" 1 = "" ∧
    contentAfterCrash (save_profile_ops "[new]") "[old]" 2 = "[new]" := by
  have h := save_direct_write_amended "[old]" "[new]" (by decide) (by decide)
  exact ⟨h.1, h.2.2.2.1⟩

/-- Claim C8 (amended): `execute` converts nothing — it re-raises whatever
a command raises; the Cloudflare create loop catches its request
exceptions itself and never raises through `execute`, but `cleanup`'s
confirmation `input()` sits outside any try block, so on interactive
stdin at end-of-file an EOFError escapes `cleanup` and `execute`
propagates it (the catch-all that prevents a crash lives in `cli.main`,
outside the dispatch). -/
theorem execute_reraises_amended (ctx : ExecCtx)
    (htty : ctx.stdinTty = true) (heof : ctx.stdinRead = StdinRead.eof) :
    cfExecute CfCommand.cleanupCmd ctx = Except.error CfExc.eofError ∧
    (∀ (ctx2 : ExecCtx) (e : CfExc),
      cfExecute CfCommand.createCmd ctx2 ≠ Except.error e) := by
  constructor
  · simp [cfExecute, cfCleanup, htty, heof]
  · intro ctx2 e
    simp [cfExecute]

/-- Counterexample for C8: it is not the case that every dispatched
command returns a plain result — cleanup under interactive stdin at EOF
makes `execute` propagate the raw EOFError. -/
theorem execute_reraises_counterexample :
    ¬ (∀ (cmd : CfCommand) (ctx : ExecCtx),
      ∃ b : Bool, cfExecute cmd ctx = Except.ok b) := by
  intro h
  rcases h CfCommand.cleanupCmd ctxEof with ⟨b, hb⟩
  have herr : cfExecute CfCommand.cleanupCmd ctxEof =
      Except.error CfExc.eofError := rfl
  rw [herr] at hb
  simp at hb

/-- Witness for C8 (amended): the concrete EOF context. -/
theorem execute_reraises_witness :
    cfExecute CfCommand.cleanupCmd ctxEof = Except.error CfExc.eofError := by
  have h := execute_reraises_amended ctxEof rfl rfl
  exact h.1

/-- Claim C9 (amended): in the Cloudflare provider the credential
verification network call precedes every validation; an out-of-range
count is clamped into the range 1..10 and creation proceeds (a count
above 10 yields `proceed 10`); the missing-URL check and delete's
missing-api_id check run only after that network call. -/
theorem validation_after_network_amended (url : String) (n : Int)
    (hn : 10 < n) :
    cfCreatePrelude true (some url) n =
      [CreateEvent.credentialNetworkCall, CreateEvent.proceed 10] ∧
    (∀ (initOk : Bool) (u : Option String) (m : Int),
      (cfCreatePrelude initOk u m).head? =
        some CreateEvent.credentialNetworkCall) ∧
    (∀ (initOk : Bool) (apiId : Option String),
      (cfDeletePrelude initOk apiId).head? =
        some DeleteEvent.credentialNetworkCall) ∧
    (∀ m : Int, 1 ≤ clampCount m ∧ clampCount m ≤ 10) := by
  refine ⟨?_, fun _ _ _ => rfl, fun _ _ => rfl, ?_⟩
  · have hc : clampCount n = 10 := by
      unfold clampCount
      rw [if_neg (by omega), if_pos (by omega)]
    simp [cfCreatePrelude, hc]
  · intro m
    unfold clampCount
    split_ifs <;> omega

/-- Counterexample for C9: a count of 15 is silently adjusted to 10 and
creation proceeds rather than exiting; a missing URL and a missing api_id
are detected only after the credential-verification network call. -/
theorem validation_after_network_counterexample :
    cfCreatePrelude true (some "https://example.local") 15 =
      [CreateEvent.credentialNetworkCall, CreateEvent.proceed 10] ∧
    cfCreatePrelude true none 1 =
      [CreateEvent.credentialNetworkCall, CreateEvent.urlMissing] ∧
    cfDeletePrelude true none =
      [DeleteEvent.credentialNetworkCall, DeleteEvent.apiIdMissing] := by
  decide

/-- Witness for C9 (amended): count 15 at a concrete URL. -/
theorem validation_after_network_witness :
    cfCreatePrelude true (some "https://example.local") 15 =
      [CreateEvent.credentialNetworkCall, CreateEvent.proceed 10] := by
  have h := validation_after_network_amended "https://example.local" 15
    (by decide)
  exact h.1

/-- Claim C10: azure.py and gcp.py both import `confirm_action` from
`omniprox.core.utils`, which defines no such name, so loading either
provider module fails with an ImportError naming `confirm_action`, and no
azure or gcp invocation ever reaches the provider logic (credential
checks, cloud API calls) — whether or not the vendor SDK is installed. -/
theorem azure_gcp_import_error :
    azure_module_load = ImportOutcome.importError "confirm_action" ∧
    gcp_module_load = ImportOutcome.importError "confirm_action" ∧
    (∀ sdk : Bool,
      get_provider_class_azure sdk ≠ ProviderDispatch.providerLogic) ∧
    (∀ sdk : Bool,
      get_provider_class_gcp sdk ≠ ProviderDispatch.providerLogic) := by
  decide

/-- Witness for C10: with the Azure SDK installed the dispatch still never
reaches provider logic. -/
theorem azure_gcp_import_error_witness :
    get_provider_class_azure true ≠ ProviderDispatch.providerLogic := by
  have h := azure_gcp_import_error
  exact h.2.2.1 true

end OmniProx
